import Mathlib

/-!
Verification of the `few-shot` decorator utility (src/few_shot/): a shallow
embedding in Lean 4 of the data model and operations of

  * src/few_shot/example.py   (class Example),
  * src/few_shot/formatter.py (class JsonFormatter),
  * src/few_shot/decorator.py (class few_shot),

followed by theorems settling the specification claims.

The embedding fixes a representative closed universe of Python values (`Val`)
and of type annotations (`Ty`), covering the kinds of values the repository
manipulates (strings, integers, lists, tuples, dicts, pydantic models,
sets). Pydantic's `parse_obj_as` is modelled by the executable predicate
`parseObjAs`; `json.dumps` by `jsonDumps` (which fails, as `json.dumps`
does with a `TypeError`, on values with no JSON encoding, such as sets);
`textwrap.dedent`, `str.lstrip` and `str.format` by `dedentStr`, `lstripStr`
and `pyFormat`. Errors raised by the Python code are modelled as `Except`
values carrying an `Err` that records which error was raised and its
diagnostic payload.

Two cross-module facts of this source shape the embedding. First, the
`Example` model of example.py declares only the fields `kwargs` and
`output`, while decorator.py line 97 and formatter.py line 23 read
`example.args`: that attribute access raises `AttributeError` on every
`Example` (modelled by `exampleArgs`), the formatter's
`except TypeError` does not catch it, and so example validation and JSON
formatting fail before any type check or rendering. Second, the
decorator's `pre=True` examples validator `_convert_to_example`
(decorator.py lines 39-48) subscripts each supplied example: pydantic
models are not subscriptable, so configuring the decorator with `Example`
instances — the repository's own usage — raises `ValidationError` at
construction; tuple-style inputs are folded into nested records under the
keys `"args"` and `"kwargs"` (modelled by `convertToExample` and
`fewShotInit`). Decoration therefore succeeds only with an empty example
list.
-/

/-- A representative universe of Python values: strings, ints, lists,
tuples (the payloads of tuple-style example records), dicts with string
keys (Python dict keys are unique; insertion order is the list order),
pydantic `BaseModel` instances (a model name and its fields, in
declaration order), and sets (which `json.dumps` cannot encode). -/
inductive Val where
  | vStr (s : String)
  | vInt (n : Int)
  | vList (elems : List Val)
  | vTuple (elems : List Val)
  | vDict (entries : List (String × Val))
  | vModel (name : String) (fields : List (String × Val))
  | vSet (elems : List Val)

/-- A representative universe of type annotations: `str`, `int`,
`typing.Any` (the "any type" sentinel), `List[t]` and `Set[t]`. -/
inductive Ty where
  | tStr
  | tInt
  | tAny
  | tList (t : Ty)
  | tSet (t : Ty)
  deriving DecidableEq

/-- The kind of a declared parameter. The source only ever distinguishes
`inspect.Parameter.VAR_KEYWORD` (a `**kwargs` parameter) from everything
else (src/few_shot/example.py line 41), so the other `inspect` kinds are
collapsed into `posOrKw`. -/
inductive ParamKind where
  | posOrKw
  | varKeyword
  deriving DecidableEq, BEq

/-- One entry of `inspect.Signature.parameters`: the parameter's name, its
declared type (`none` models the `inspect.Parameter.empty` sentinel, i.e. no
annotation at all, while `some Ty.tAny` models an explicit `typing.Any`),
and its kind. -/
structure Param where
  name : String
  annot : Option Ty := none
  kind : ParamKind := ParamKind.posOrKw

/-- The reflection metadata of the decorated function: its parameters in
declaration order and its return annotation (`none` models
`inspect.Signature.empty`). -/
structure Sig where
  parameters : List Param
  returnAnnot : Option Ty := none

/-- The errors the source raises, by kind and diagnostic payload.

  * `missingReturnTypeHint`: `TypeError("Function must have a specific
    return type hint")`, decorator.py line 84.
  * `missingTypeHint param`: `TypeError(f"Parameter '{param}' must have a
    specific type hint")`, decorator.py lines 106-108 and 126.
  * `invalidParameter param`: `InvalidParameter(f"Parameter '{param}' does
    not match a type hinted parameter")`, example.py lines 56-58.
  * `typeMismatch label expected gotType`: the
    `TypeError(f"Expected {label} of type {expected}, got {gotType}")`
    raised when `parse_obj_as` fails (decorator.py lines 112-114, 130-132,
    138-140; example.py lines 66-68, 74-76).
  * `typeMismatchEmptyHint label`: the same `TypeError`, raised because
    `parse_obj_as` was handed the `inspect.Parameter.empty` sentinel
    instead of a type.
  * `serializationError`: `TypeError("All arguments, keyword arguments, and
    outputs must be JSON serializable")`, formatter.py lines 34-37.
  * `docstringFormatError`: the `KeyError`/`ValueError`/`IndexError` that
    `str.format` raises on a replacement field it cannot fill
    (decorator.py line 70).
  * `attributeError attr`: the `AttributeError` raised by reading an
    attribute a pydantic model does not declare — `example.args` at
    decorator.py line 97 and formatter.py line 23, since the `Example`
    model of example.py declares only `kwargs` and `output`.
  * `validationError`: pydantic's `ValidationError` at model construction,
    wrapping a `TypeError`/`ValueError`/`AssertionError` raised inside a
    validator — here the `TypeError` from `ex[0]` in
    `few_shot._convert_to_example` (decorator.py line 43), since pydantic
    models are not subscriptable.
  * `indexError`: `ex[0]` on an empty tuple-style example; `IndexError` is
    not wrapped by pydantic and propagates as itself. -/
inductive Err where
  | missingReturnTypeHint
  | missingTypeHint (param : String)
  | invalidParameter (param : String)
  | typeMismatch (label : String) (expected : Ty) (gotType : String)
  | typeMismatchEmptyHint (label : String)
  | serializationError
  | docstringFormatError
  | attributeError (attr : String)
  | validationError
  | indexError
  deriving DecidableEq

/-- Python's `type(value).__name__`, for the diagnostic payloads. -/
def pyTypeName : Val → String
  | Val.vStr _ => "str"
  | Val.vInt _ => "int"
  | Val.vList _ => "list"
  | Val.vTuple _ => "tuple"
  | Val.vDict _ => "dict"
  | Val.vModel n _ => n
  | Val.vSet _ => "set"

/-- Pydantic's `parse_obj_as(ty, value)` as a success predicate: `true` iff
the call returns instead of raising `ValidationError`. `Any` accepts
everything; `str` accepts strings and (by pydantic v1 coercion) ints;
containers check their element type recursively (`List[t]` coerces
tuples as pydantic does). Pydantic's coercion of digit strings to `int`
and of other sequences to `Set` is not exercised by the repository and is
not modelled. -/
def parseObjAs : Ty → Val → Bool
  | Ty.tAny, _ => true
  | Ty.tStr, Val.vStr _ => true
  | Ty.tStr, Val.vInt _ => true
  | Ty.tStr, _ => false
  | Ty.tInt, Val.vInt _ => true
  | Ty.tInt, _ => false
  | Ty.tList t, Val.vList es => es.all (fun v => parseObjAs t v)
  | Ty.tList t, Val.vTuple es => es.all (fun v => parseObjAs t v)
  | Ty.tList _, _ => false
  | Ty.tSet t, Val.vSet es => es.all (fun v => parseObjAs t v)
  | Ty.tSet _, _ => false

/-- The `Example` pydantic model (src/few_shot/example.py lines 21-22): a
mapping of named values and the expected output. It declares exactly these
two fields — in particular no `args` field, so the attribute access
`example.args` performed by decorator.py line 97 and formatter.py line 23
raises `AttributeError` (see `exampleArgs`). -/
structure Example where
  kwargs : List (String × Val) := []
  output : Val

/-- The attribute access `example.args`. The `Example` model declares only
`kwargs` and `output`, and pydantic v1 models have no `__getattr__`
fallback, so the access raises `AttributeError` for every `Example`
value. -/
def exampleArgs : Example → Except Err (List Val) :=
  fun _ => Except.error (Err.attributeError "args")

/-- Python `dict` lookup `d.get(key)` on an entry list with unique keys. -/
def dictLookup (d : List (String × Val)) (key : String) : Option Val :=
  (d.find? (fun kv => kv.1 == key)).map (fun kv => kv.2)

/-- The `pre=True` root validator `Example.split_args_kwargs_output`
(src/few_shot/example.py lines 27-30): pop the reserved `"output"` key from
the supplied named values and route everything else into `kwargs`. When no
`"output"` key is present, `values.pop("output")` raises `KeyError` and
construction fails (`none`). -/
def splitArgsKwargsOutput (values : List (String × Val)) :
    Option (List (String × Val) × Val) :=
  match dictLookup values "output" with
  | none => none
  | some out => some (values.filter (fun kv => !(kv.1 == "output")), out)

/-- Constructing an `Example(...)` from keyword values
(src/few_shot/example.py lines 9-30): the root validator splits out the
output; the resulting model has no positional values. -/
def exampleInit (values : List (String × Val)) : Option Example :=
  (splitArgsKwargsOutput values).map
    (fun kwOut => { kwargs := kwOut.1, output := kwOut.2 })

/-- One element of the `examples=` list a caller hands to `few_shot(...)`:
either an already-constructed `Example` instance (the repository's own
usage, e.g. tests/test_decorator.py) or a tuple-style record whose
elements are raw values. -/
inductive RawExample where
  | inst (e : Example)
  | tup (elems : List Val)

/-- One step of the `pre=True` validator `few_shot._convert_to_example`
(src/few_shot/decorator.py lines 39-48). It subscripts each supplied
example (`ex[0]`, `ex[-1]`, `len(ex)`):

  * an `Example` instance is not subscriptable — `ex[0]` raises
    `TypeError`, which pydantic wraps into `ValidationError`, so
    configuring the decorator with `Example` instances always fails;
  * an empty tuple raises `IndexError` at `ex[0]` (propagated unwrapped);
  * a nonempty tuple is folded into
    `Example(args=..., kwargs=..., output=ex[-1])`, whose `pre=True` root
    validator routes the `args` and `kwargs` keywords into the single
    `kwargs` field — a nested record under the names `"args"` and
    `"kwargs"`, not positional values. -/
def convertToExample : RawExample → Except Err Example
  | RawExample.inst _ => Except.error Err.validationError
  | RawExample.tup [] => Except.error Err.indexError
  | RawExample.tup (e0 :: rest) =>
      let args1 := match e0 with
        | Val.vTuple es => Val.vTuple es
        | v => Val.vTuple [v]
      let kw := if 2 < (e0 :: rest).length then rest.headD (Val.vDict [])
        else Val.vDict []
      let out := rest.getLastD e0
      match exampleInit [("args", args1), ("kwargs", kw), ("output", out)] with
      | some e => Except.ok e
      | none => Except.error Err.validationError

/-- `few_shot._convert_to_example` over the whole `examples=` list, in
order, failing fast as the comprehension of decorator.py lines 41-48
does. -/
def convertExamples : List RawExample → Except Err (List Example)
  | [] => Except.ok []
  | r :: rs => do
      let e ← convertToExample r
      let es ← convertExamples rs
      pure (e :: es)

/-- Lookup in `inspect.Signature.parameters` (`hints.get(name)`). -/
def lookupParam (params : List Param) (name : String) : Option Param :=
  params.find? (fun p => p.name == name)

/-- True iff an annotation slot holds no specific type: either the
`inspect.Parameter.empty` sentinel or `typing.Any` (the test repeated at
decorator.py lines 80-83, 105, 121-125 and example.py lines 47-51). -/
def noSpecificHint : Option Ty → Bool
  | none => true
  | some Ty.tAny => true
  | some _ => false

/-- The scan for a `**kwargs` parameter at the top of
`Example._check_keyword_argument_types` (src/few_shot/example.py lines
39-43): the annotation of the first `VAR_KEYWORD` parameter, if any.
`some none` means a `**kwargs` parameter that itself has no annotation
(Python then stores the `inspect.Parameter.empty` sentinel, which is not
`None`, so the fallback is still taken). -/
def findVarKeywordAnnot (params : List Param) : Option (Option Ty) :=
  (params.find? (fun p => p.kind == ParamKind.varKeyword)).map
    (fun p => p.annot)

/-- `Example._check_keyword_argument_types` (src/few_shot/example.py lines
36-68): each named value is checked against its declared parameter's type;
a name that matches no declared parameter, or one whose parameter has no
specific type, falls back to the `**kwargs` annotation when the signature
declares a `**kwargs` parameter, and otherwise raises `InvalidParameter`.
A fallback to an unannotated `**kwargs` hands `parse_obj_as` the
`inspect.Parameter.empty` sentinel, which raises and is re-raised as the
`TypeError` of lines 65-68. -/
def exampleCheckKeywordArgumentTypes
    (kwargs : List (String × Val)) (params : List Param) : Except Err Unit :=
  match kwargs with
  | [] => Except.ok ()
  | (name, value) :: rest =>
    let hintP := lookupParam params name
    let unmatched := match hintP with
      | none => true
      | some p => noSpecificHint p.annot
    if unmatched then
      match findVarKeywordAnnot params with
      | none => Except.error (Err.invalidParameter name)
      | some none =>
          Except.error (Err.typeMismatchEmptyHint ("keyword argument " ++ name))
      | some (some t) =>
          if parseObjAs t value then
            exampleCheckKeywordArgumentTypes rest params
          else
            Except.error
              (Err.typeMismatch ("keyword argument " ++ name) t (pyTypeName value))
    else
      match hintP with
      | some p =>
        match p.annot with
        | some t =>
            if parseObjAs t value then
              exampleCheckKeywordArgumentTypes rest params
            else
              Except.error
                (Err.typeMismatch ("keyword argument " ++ name) t (pyTypeName value))
        | none => Except.error (Err.invalidParameter name)
      | none => Except.error (Err.invalidParameter name)

/-- `Example._check_output_type` (src/few_shot/example.py lines 70-76) and
`few_shot._check_output_type` (src/few_shot/decorator.py lines 134-140),
which are identical: `parse_obj_as(hint, output)`, with failure re-raised
as a `TypeError`. Handing it the `inspect.Signature.empty` sentinel (no
return annotation) also raises. -/
def checkOutputType (output : Val) (returnHint : Option Ty) : Except Err Unit :=
  match returnHint with
  | none => Except.error (Err.typeMismatchEmptyHint "output")
  | some t =>
      if parseObjAs t output then Except.ok ()
      else Except.error (Err.typeMismatch "output" t (pyTypeName output))

/-- `Example.check` (src/few_shot/example.py lines 32-34). -/
def exampleCheck (e : Example) (sig : Sig) : Except Err Unit := do
  exampleCheckKeywordArgumentTypes e.kwargs sig.parameters
  checkOutputType e.output sig.returnAnnot

/-- `few_shot._validate_return_type` (src/few_shot/decorator.py lines
78-84): raise unless the return annotation is present and is not `Any`. -/
def validateReturnType (sig : Sig) : Except Err Unit :=
  if noSpecificHint sig.returnAnnot then Except.error Err.missingReturnTypeHint
  else Except.ok ()

/-- `few_shot._check_argument_types` (src/few_shot/decorator.py lines
101-114): positional values are paired with the declared parameters in
order (`zip` stops at the shorter sequence); each parameter must carry a
specific type and each value must satisfy it. -/
def checkArgumentTypes : List Val → List Param → Except Err Unit
  | [], _ => Except.ok ()
  | _, [] => Except.ok ()
  | arg :: args, p :: ps =>
    match p.annot with
    | none => Except.error (Err.missingTypeHint p.name)
    | some Ty.tAny => Except.error (Err.missingTypeHint p.name)
    | some t =>
        if parseObjAs t arg then checkArgumentTypes args ps
        else Except.error (Err.typeMismatch "argument" t (pyTypeName arg))

/-- `few_shot._check_keyword_argument_types` (src/few_shot/decorator.py
lines 116-132): unlike the `Example` method of the same name, this variant
has no `**kwargs` fallback — a name that matches no declared parameter, or
one with no specific type, always raises. -/
def checkKeywordArgumentTypes
    (kwargs : List (String × Val)) (params : List Param) : Except Err Unit :=
  match kwargs with
  | [] => Except.ok ()
  | (name, value) :: rest =>
    match lookupParam params name with
    | none => Except.error (Err.missingTypeHint name)
    | some p =>
      match p.annot with
      | none => Except.error (Err.missingTypeHint name)
      | some Ty.tAny => Except.error (Err.missingTypeHint name)
      | some t =>
          if parseObjAs t value then checkKeywordArgumentTypes rest params
          else
            Except.error
              (Err.typeMismatch ("keyword argument " ++ name) t (pyTypeName value))

/-- The per-example body of `few_shot._validate_examples`
(src/few_shot/decorator.py lines 97-99): line 97 first evaluates
`example.args`, which raises `AttributeError` (the `Example` model has no
such field), so the positional, keyword and output checks of lines 97-99
— modelled after the `←` bind — are unreachable through this path. -/
def validateExample (e : Example) (sig : Sig) : Except Err Unit := do
  let args ← exampleArgs e
  checkArgumentTypes args sig.parameters
  checkKeywordArgumentTypes e.kwargs sig.parameters
  checkOutputType e.output sig.returnAnnot

/-- `few_shot._validate_examples` (src/few_shot/decorator.py lines 86-99):
every example is validated in list order, failing fast at the first error.
(The `isinstance(example, tuple)` branch of lines 89-95 is dead for the
validated model: the `pre=True` validator `_convert_to_example` has
already turned every member of `self.examples` into an `Example` — see
`convertToExample` — so no member is a tuple here.) -/
def validateExamples : List Example → Sig → Except Err Unit
  | [], _ => Except.ok ()
  | e :: rest, sig => do
    validateExample e sig
    validateExamples rest sig

mutual
/-- One pass of `JsonFormatter._serialize_value`
(src/few_shot/formatter.py lines 40-48), mutually with its recursion into
lists and into dict/model entries: a `BaseModel` becomes the dict of its
fields, lists recurse elementwise, dicts recurse over their values, and
every other value — sets included — passes through unchanged. -/
def serializeValue : Val → Val
  | Val.vStr s => Val.vStr s
  | Val.vInt n => Val.vInt n
  | Val.vList es => Val.vList (serializeList es)
  | Val.vTuple es => Val.vList (serializeList es)
  | Val.vDict es => Val.vDict (serializeEntries es)
  | Val.vModel _ fields => Val.vDict (serializeEntries fields)
  | Val.vSet es => Val.vSet es

/-- Elementwise `_serialize_value` over a Python list. -/
def serializeList : List Val → List Val
  | [] => []
  | v :: rest => serializeValue v :: serializeList rest

/-- Valuewise `_serialize_value` over the entries of a dict (or of a
model's `.dict()`, which converts nested values the same way). -/
def serializeEntries : List (String × Val) → List (String × Val)
  | [] => []
  | kv :: rest => (kv.1, serializeValue kv.2) :: serializeEntries rest
end

/-- JSON string escaping as `json.dumps` performs it on the characters the
repository's values contain (quote, backslash, and the common control
characters; `\uXXXX` escapes of other control characters are not
exercised and not modelled). -/
def jsonEscapeChar (c : Char) : String :=
  if c = '"' then "\\\""
  else if c = '\\' then "\\\\"
  else if c = '\n' then "\\n"
  else if c = '\t' then "\\t"
  else if c = '\r' then "\\r"
  else String.singleton c

/-- A JSON string literal: `json.dumps` on a Python `str`. -/
def jsonQuote (s : String) : String :=
  "\"" ++ String.join (s.data.map jsonEscapeChar) ++ "\""

mutual
/-- `json.dumps` with its default separators: strings are quoted, ints
printed, lists become `[a, b]`, dicts become `{"k": v}` in insertion
order, and any other value — a set, or a `BaseModel` that was not
serialized first — raises `TypeError` (modelled as `Except.error ()`). -/
def jsonDumps : Val → Except Unit String
  | Val.vStr s => Except.ok (jsonQuote s)
  | Val.vInt n => Except.ok (toString n)
  | Val.vList es =>
      (fun parts => "[" ++ String.intercalate ", " parts ++ "]") <$> dumpsList es
  | Val.vTuple es =>
      (fun parts => "[" ++ String.intercalate ", " parts ++ "]") <$> dumpsList es
  | Val.vDict es =>
      (fun parts => "\x7b" ++ String.intercalate ", " parts ++ "\x7d") <$>
        dumpsEntries es
  | Val.vModel _ _ => Except.error ()
  | Val.vSet _ => Except.error ()

/-- `json.dumps` over the elements of a list. -/
def dumpsList : List Val → Except Unit (List String)
  | [] => Except.ok []
  | v :: rest => do
      let s ← jsonDumps v
      let ss ← dumpsList rest
      pure (s :: ss)

/-- `json.dumps` over the entries of a dict (`"key": value` pieces). -/
def dumpsEntries : List (String × Val) → Except Unit (List String)
  | [] => Except.ok []
  | kv :: rest => do
      let s ← jsonDumps kv.2
      let ss ← dumpsEntries rest
      pure ((jsonQuote kv.1 ++ ": " ++ s) :: ss)
end

/-- Python `dict` assignment `d[k] = v` on an entry list: an existing key
keeps its position and gets the new value; a new key is appended. -/
def dictSet (d : List (String × Val)) (k : String) (v : Val) :
    List (String × Val) :=
  if d.any (fun kv => kv.1 == k) then
    d.map (fun kv => if kv.1 == k then (k, v) else kv)
  else d ++ [(k, v)]

/-- Python `dict.update`: assign each new entry in order. -/
def dictUpdate (d new : List (String × Val)) : List (String × Val) :=
  new.foldl (fun acc kv => dictSet acc kv.1 kv.2) d

/-- The body of `JsonFormatter.format` past its `example.args` access
(src/few_shot/formatter.py lines 21-38), over an explicit positional-value
list: pair the positional values with the parameter names in declaration
order, overlay the named values via `dict.update`, serialize everything,
JSON-encode the mapping and the output, and join them with the
`"{inputs} -> {outputs}"` template. A `TypeError` from `json.dumps` is
re-raised as the blanket serialization `TypeError` of lines 34-37. -/
def jsonFormatBody (args : List Val) (kwargs : List (String × Val))
    (output : Val) (sig : Sig) : Except Err String :=
  let base :=
    (List.zip (sig.parameters.map (fun p => p.name)) args).map
      (fun na => (na.1, serializeValue na.2))
  let argsDict :=
    if kwargs.isEmpty then base
    else dictUpdate base (kwargs.map (fun kv => (kv.1, serializeValue kv.2)))
  match (do
      let argsStr ← jsonDumps (Val.vDict argsDict)
      let outputStr ← jsonDumps (serializeValue output)
      pure (argsStr ++ " -> " ++ outputStr) : Except Unit String) with
  | Except.ok s => Except.ok s
  | Except.error _ => Except.error Err.serializationError

/-- `JsonFormatter.format` (src/few_shot/formatter.py lines 19-38): the
dict comprehension of line 23 evaluates `example.args` inside the `try`
block; the `Example` model declares no such attribute, and the
`except TypeError` of line 34 does not catch the resulting
`AttributeError`, so `format` raises it for every `Example` and the rest
of the body (`jsonFormatBody`) is unreachable.
(`format` also takes the function's name, which its body never uses; the
parameter is omitted here — decorator.py line 153 indeed calls it without
one.) -/
def jsonFormat (ex : Example) (sig : Sig) : Except Err String :=
  match exampleArgs ex with
  | Except.ok args => jsonFormatBody args ex.kwargs ex.output sig
  | Except.error e => Except.error e

/-- The whitespace characters Python's `str.lstrip()` strips by default
(the ASCII ones; the repository's docstrings contain no exotic spaces). -/
def pyIsSpaceChar (c : Char) : Bool :=
  c = ' ' || c = '\t' || c = '\n' || c = '\r' || c = '\x0b' || c = '\x0c'

/-- Python `str.lstrip()`. -/
def lstripStr (s : String) : String :=
  String.mk (s.data.dropWhile pyIsSpaceChar)

/-- Python `text.split(sep)` for a one-character separator: the pieces
between occurrences of `sep`, empty pieces kept (`"".split` is `[""]`). -/
def splitOnChar (sep : Char) : List Char → List (List Char)
  | [] => [[]]
  | c :: rest =>
      if c = sep then [] :: splitOnChar sep rest
      else
        match splitOnChar sep rest with
        | [] => [[c]]
        | l :: ls => (c :: l) :: ls

/-- Python `sep.join(lines)` for a one-character separator. -/
def joinLines (sep : Char) : List (List Char) → List Char
  | [] => []
  | [l] => l
  | l :: ls => l ++ sep :: joinLines sep ls

/-- A line matching `textwrap`'s `^[ \t]+$`: nonempty, spaces and tabs
only. `textwrap.dedent` normalizes such lines to empty ones. -/
def isWsOnlyLine (l : List Char) : Bool :=
  !l.isEmpty && l.all (fun c => c = ' ' || c = '\t')

/-- The leading run of spaces and tabs of a line (`textwrap`'s
`(^[ \t]*)(?:[^ \t\n])` capture). -/
def leadingIndent (l : List Char) : List Char :=
  l.takeWhile (fun c => c = ' ' || c = '\t')

/-- The longest common prefix of two character lists — one step of
`textwrap.dedent`'s margin loop (its three cases: one indent a prefix of
the other, or cut at the first mismatch). -/
def commonPrefix : List Char → List Char → List Char
  | x :: a, y :: b => if x = y then x :: commonPrefix a b else []
  | _, _ => []

/-- `textwrap.dedent`'s margin: the longest whitespace prefix common to
all lines that still have content after whitespace-only lines were
emptied. -/
def dedentMargin (lines : List (List Char)) : List Char :=
  match (lines.filter (fun l => !l.isEmpty)).map leadingIndent with
  | [] => []
  | i :: rest => rest.foldl commonPrefix i

/-- `textwrap.dedent`: split on newlines, empty the whitespace-only lines,
compute the common margin, and strip it from the start of every line that
carries it. -/
def dedentStr (text : String) : String :=
  let lines := (splitOnChar '\n' text.data).map (fun l => if isWsOnlyLine l then [] else l)
  let margin := dedentMargin lines
  let lines2 :=
    if margin.isEmpty then lines
    else
      lines.map (fun l =>
        if margin.isPrefixOf l then l.drop margin.length else l)
  String.mk (joinLines '\n' lines2)

/-- Python's substring test `needle in hay` (decorator.py line 68). -/
def containsSub (needle : List Char) : List Char → Bool
  | [] => needle.isPrefixOf []
  | c :: rest => needle.isPrefixOf (c :: rest) || containsSub needle rest

/-- The placeholder token of the docstring contract, `"{examples}"`. -/
def examplesToken : String := "\x7bexamples\x7d"

mutual
/-- Python's `doc.format(examples=repl)` (decorator.py line 70), modelled
for the one keyword the repository passes: `{{` and `}}` unescape to a
literal brace, each `{examples}` replacement field becomes `repl`, and any
other replacement field, unterminated `{`, or stray `}` raises (as
`str.format` raises `KeyError`, `IndexError` or `ValueError`; format
conversions and format specs are not exercised by the repository and are
modelled as errors too). -/
def pyFormat (repl : List Char) : List Char → Except Unit (List Char)
  | [] => Except.ok []
  | c :: rest =>
      if c = '\x7d' then pyAfterCloseBrace repl rest
      else if c = '\x7b' then pyAfterOpenBrace repl rest
      else (fun out => c :: out) <$> pyFormat repl rest

/-- What follows a first `\x7d`: only the `\x7d\x7d` escape is legal. -/
def pyAfterCloseBrace (repl : List Char) : List Char → Except Unit (List Char)
  | d :: r2 =>
      if d = '\x7d' then (fun out => '\x7d' :: out) <$> pyFormat repl r2
      else Except.error ()
  | [] => Except.error ()

/-- What follows a first `\x7b`: the tail of the `examples` replacement
field, the `\x7b\x7b` escape, or an error. -/
def pyAfterOpenBrace (repl : List Char) : List Char → Except Unit (List Char)
  | 'e' :: 'x' :: 'a' :: 'm' :: 'p' :: 'l' :: 'e' :: 's' :: '\x7d' :: rest =>
      (fun out => repl ++ out) <$> pyFormat repl rest
  | d :: r2 =>
      if d = '\x7b' then (fun out => '\x7b' :: out) <$> pyFormat repl r2
      else Except.error ()
  | [] => Except.error ()
end

/-- The `few_shot` pydantic model after validation (its fields,
src/few_shot/decorator.py lines 30-34, with their declared defaults).
`examples` holds what the `pre=True` validator `_convert_to_example`
produced — construct a configuration through `fewShotInit`, which runs
that validator; with any `Example`-instance input the construction fails,
so a validated configuration's `examples` are empty or converted
tuple-style records. `docstringTemplate` is declared by the source but
never read by it. The formatter is the injected `FormatterProtocol`
strategy; the default is the JSON formatter. -/
structure FewShotConfig where
  examples : List Example
  docstringTemplate : String := examplesToken
  formatter : Example → Sig → Except Err String := jsonFormat
  defaultFormat : String := "\nExamples:\n"
  joinStr : String := "\n"

/-- Constructing the decorator, `few_shot(examples=..., ...)`: pydantic
runs `_convert_to_example` over the supplied list (see
`convertToExample`); an error there aborts construction and no
configuration exists. -/
def fewShotInit (raw : List RawExample)
    (formatter : Example → Sig → Except Err String := jsonFormat)
    (defaultFormat : String := "\nExamples:\n")
    (joinStr : String := "\n") : Except Err FewShotConfig :=
  (convertExamples raw).map (fun es =>
    { examples := es, formatter := formatter,
      defaultFormat := defaultFormat, joinStr := joinStr })

/-- `few_shot._modify_docstring` (src/few_shot/decorator.py lines 64-76):
dedent and left-strip the examples block; if the function has a (nonempty)
docstring, dedent and left-strip it too, then substitute the examples
block for the `{examples}` token when present and append
`default_format ++ examples` otherwise; with no docstring, the result is
`default_format ++ examples`, left-stripped. -/
def modifyDocstring (cfg : FewShotConfig) (doc : Option String)
    (examplesText : String) : Except Err String :=
  let exBlock := lstripStr (dedentStr examplesText)
  match doc with
  | some d =>
    if !(d == "") then
      let d2 := lstripStr (dedentStr d)
      if containsSub examplesToken.data d2.data then
        match pyFormat exBlock.data d2.data with
        | Except.ok out => Except.ok (String.mk out)
        | Except.error _ => Except.error Err.docstringFormatError
      else Except.ok (d2 ++ cfg.defaultFormat ++ exBlock)
    else Except.ok (lstripStr (cfg.defaultFormat ++ exBlock))
  | none => Except.ok (lstripStr (cfg.defaultFormat ++ exBlock))

/-- The loop of `few_shot._generate_example_strings`
(src/few_shot/decorator.py lines 142-155): format every example with the
configured formatter, in list order. (As in `validateExamples`, the
tuple-conversion branch concerns only tuple-style examples and is not
modelled.) -/
def generateExampleStringsGo (fmt : Example → Sig → Except Err String)
    (sig : Sig) : List Example → Except Err (List String)
  | [] => Except.ok []
  | e :: rest => do
      let s ← fmt e sig
      let ss ← generateExampleStringsGo fmt sig rest
      pure (s :: ss)

/-- `few_shot._generate_example_strings` applied to the configuration's
own example list. -/
def generateExampleStrings (cfg : FewShotConfig) (sig : Sig) :
    Except Err (List String) :=
  generateExampleStringsGo cfg.formatter sig cfg.examples

/-- The docstring computation of `few_shot.__call__`
(src/few_shot/decorator.py lines 50-62): validate the return type, then
every example, then format every example; if any example text was
produced, join the texts with `join_str` and rewrite the docstring,
otherwise keep the function's own docstring (`functools.wraps` copies it
onto the wrapper). Any error aborts decoration with no docstring
produced. -/
def fewShotCallDoc (cfg : FewShotConfig) (funcDoc : Option String)
    (sig : Sig) : Except Err (Option String) := do
  validateReturnType sig
  validateExamples cfg.examples sig
  let exampleStrings ← generateExampleStrings cfg sig
  if exampleStrings.isEmpty then pure funcDoc
  else do
    let examplesDoc := String.intercalate cfg.joinStr exampleStrings
    let newDoc ← modifyDocstring cfg funcDoc examplesDoc
    pure (some newDoc)

/-- The wrapper closure of `few_shot.__call__` (src/few_shot/decorator.py
lines 55-57): it forwards its arguments to the wrapped function and
returns that call's result unchanged. Instantiating `β` with an `Except`
type models a function that can also raise. -/
def wrapper {α β : Type} (func : α → β) : α → β :=
  fun a => func a

/-- `few_shot.__call__` as a whole: on success it produces the wrapped
callable — the forwarding `wrapper` around the original function —
together with its docstring; on failure the decoration aborts with the
error and no callable is produced. -/
def fewShotCall {α β : Type} (cfg : FewShotConfig) (funcDoc : Option String)
    (func : α → β) (sig : Sig) : Except Err (Option String × (α → β)) :=
  (fewShotCallDoc cfg funcDoc sig).map (fun d => (d, wrapper func))


/-! Helper lemmas shared by the claim theorems. -/

theorem noSpecificHint_eq_false {t : Ty} (ht : t ≠ Ty.tAny) :
    noSpecificHint (some t) = false := by
  cases t
  case tAny => exact absurd rfl ht
  all_goals rfl

theorem validateReturnType_ok {sig : Sig} {t : Ty}
    (hret : sig.returnAnnot = some t) (ht : t ≠ Ty.tAny) :
    validateReturnType sig = Except.ok () := by
  simp [validateReturnType, hret, noSpecificHint_eq_false ht]

/-! The claim theorems. -/

/-- C1: the claim says an example validated at decoration time falls back
to the variadic-keyword annotation for names matching no specifically
typed parameter. On this source no keyword validation is ever reached for
the repository's own test input (`func_with_variable_args(**kwargs: int)`
with `Example(a=1, b=2, c=3, output=6)`, tests/test_decorator.py): first,
configuring the decorator with an `Example` instance raises
`ValidationError` inside `few_shot._convert_to_example` (decorator.py
line 43, `ex[0]` on a non-subscriptable model) — first conjunct; second,
even an independently constructed configuration fails at `example.args`
(decorator.py line 97, `AttributeError`) before the keyword check of line
98 — second conjunct. The fallback the claim describes exists only in
`Example._check_keyword_argument_types` (example.py lines 36-58), which
decoration never invokes; it does accept the input — third conjunct. -/
theorem C1_decoration_lacks_varkeyword_fallback :
    fewShotInit
      [RawExample.inst
        { kwargs := [("a", Val.vInt 1), ("b", Val.vInt 2), ("c", Val.vInt 3)],
          output := Val.vInt 6 }] =
      Except.error Err.validationError
    ∧ validateExamples
        [{ kwargs := [("a", Val.vInt 1), ("b", Val.vInt 2), ("c", Val.vInt 3)],
           output := Val.vInt 6 }]
        { parameters := [{ name := "kwargs", annot := some Ty.tInt,
                           kind := ParamKind.varKeyword }],
          returnAnnot := some Ty.tInt } =
      Except.error (Err.attributeError "args")
    ∧ exampleCheckKeywordArgumentTypes
        [("a", Val.vInt 1), ("b", Val.vInt 2), ("c", Val.vInt 3)]
        [{ name := "kwargs", annot := some Ty.tInt, kind := ParamKind.varKeyword }] =
      Except.ok () :=
  ⟨rfl, rfl, rfl⟩

/-- C2: when the declared return type is absent or `Any`, decoration fails
with the missing-type-hint error whatever the configuration holds — in
particular for every example list, so no example is validated or formatted
before the failure. -/
theorem C2_missing_return_type_fails_first {α β : Type} (cfg : FewShotConfig)
    (funcDoc : Option String) (func : α → β) (sig : Sig)
    (h : sig.returnAnnot = none ∨ sig.returnAnnot = some Ty.tAny) :
    fewShotCall cfg funcDoc func sig = Except.error Err.missingReturnTypeHint := by
  have hv : validateReturnType sig = Except.error Err.missingReturnTypeHint := by
    rcases h with h | h <;> simp [validateReturnType, h, noSpecificHint]
  simp [fewShotCall, fewShotCallDoc, hv, Bind.bind, Except.bind, Except.map]

theorem C2_missing_return_type_fails_first_witness :
    fewShotCall
      { examples := [{ kwargs := [("x", Val.vStr "s")], output := Val.vStr "s" }] }
      none (fun n : Nat => n) { parameters := [], returnAnnot := none } =
      Except.error Err.missingReturnTypeHint :=
  C2_missing_return_type_fails_first _ _ _ _ (Or.inl rfl)

/-- C3: the claim says an example value that fails its declared type makes
decoration raise the type-mismatch `TypeError` from `parse_obj_as`. On
this source that error is unreachable at decoration: configuring the
decorator with the example already raises `ValidationError` in
`few_shot._convert_to_example` (first conjunct), and even past
construction, `_validate_examples` raises `AttributeError` at
`example.args` (decorator.py line 97) before any `parse_obj_as` check
runs (second conjunct) — an error, but not the claimed one. No wrapped
function or docstring is produced either way. -/
theorem C3_type_mismatch_unreachable :
    fewShotInit
      [RawExample.inst { kwargs := [("x", Val.vStr "a")], output := Val.vStr "bad" }] =
      Except.error Err.validationError
    ∧ validateExamples
        [{ kwargs := [("x", Val.vStr "a")], output := Val.vStr "bad" }]
        { parameters := [{ name := "x", annot := some Ty.tStr }],
          returnAnnot := some Ty.tInt } =
      Except.error (Err.attributeError "args") :=
  ⟨rfl, rfl⟩

/-- C4: when decoration succeeds, the wrapped callable it produces is the
forwarding wrapper: on every input it returns exactly what the original
function returns (instantiating the codomain with an `Except` type, it
raises exactly when the original raises); only the docstring component of
the result differs from the original function. -/
theorem C4_wrapper_forwards_calls {α β : Type} (cfg : FewShotConfig)
    (funcDoc : Option String) (func : α → β) (sig : Sig)
    (w : Option String × (α → β))
    (h : fewShotCall cfg funcDoc func sig = Except.ok w) (a : α) :
    w.2 a = func a := by
  unfold fewShotCall at h
  cases hd : fewShotCallDoc cfg funcDoc sig with
  | error e => rw [hd] at h; simp [Except.map] at h
  | ok d =>
    rw [hd] at h
    simp only [Except.map, Except.ok.injEq] at h
    rw [← h]
    rfl

theorem C4_wrapper_forwards_calls_witness :
    ((none, wrapper (fun n : Nat => n + 1)) : Option String × (Nat → Nat)).2 5 =
      (fun n : Nat => n + 1) 5 :=
  C4_wrapper_forwards_calls { examples := [] } none (fun n : Nat => n + 1)
    { parameters := [], returnAnnot := some Ty.tStr }
    (none, wrapper (fun n : Nat => n + 1)) rfl 5

/-- C5: the claim says the JSON formatter renders the example with single
named value `"test"` for parameter `"arg"` and output `"output"` as
`{"arg": "test"} -> "output"` (and the repository's `test_json_formatter`
asserts the same). The source instead raises `AttributeError` at
`example.args` (formatter.py line 23; the `except` of line 34 catches only
`TypeError`), because the `Example` model declares no `args` field: no
text is ever produced. -/
theorem C5_formatter_attribute_error :
    jsonFormat
      { kwargs := [("arg", Val.vStr "test")], output := Val.vStr "output" }
      { parameters := [{ name := "arg", annot := some Ty.tStr }],
        returnAnnot := some Ty.tStr } =
      Except.error (Err.attributeError "args") := rfl

/-- C6: decorating with an empty example list leaves the docstring exactly
as declared on the original function (and the wrapped callable is the
plain forwarding wrapper). -/
theorem C6_empty_examples_docstring_untouched {α β : Type} (cfg : FewShotConfig)
    (funcDoc : Option String) (func : α → β) (sig : Sig) (t : Ty)
    (hex : cfg.examples = [])
    (hret : sig.returnAnnot = some t) (ht : t ≠ Ty.tAny) :
    fewShotCall cfg funcDoc func sig = Except.ok (funcDoc, wrapper func) := by
  simp [fewShotCall, fewShotCallDoc, validateReturnType_ok hret ht, hex,
    validateExamples, generateExampleStrings, generateExampleStringsGo,
    Bind.bind, Except.bind, Except.map, Pure.pure, Except.pure, List.isEmpty]

theorem C6_empty_examples_docstring_untouched_witness :
    fewShotCall { examples := [] } (some "  My docstring.  ") (fun n : Nat => n)
      { parameters := [], returnAnnot := some Ty.tStr } =
      Except.ok (some "  My docstring.  ", wrapper (fun n : Nat => n)) :=
  C6_empty_examples_docstring_untouched _ _ _ _ Ty.tStr rfl rfl (by decide)

/-- C7: the claim says a value with no structured encoding makes the JSON
formatter raise the serialization error and decoration abort with it. On
this source the blanket serialization `TypeError` (formatter.py lines
34-37) is unreachable: decoration with the example aborts at
configuration with `ValidationError` (first conjunct,
tests/test_decorator.py `test_few_shot_with_non_serializable_data`
decorates this way), and the formatter itself, called directly on the
example, raises `AttributeError` at `example.args` before any
`json.dumps` runs (second conjunct). -/
theorem C7_serialization_error_unreachable :
    fewShotInit
      [RawExample.inst { kwargs := [("p", Val.vSet [])], output := Val.vStr "o" }] =
      Except.error Err.validationError
    ∧ jsonFormat
        { kwargs := [("p", Val.vSet [])], output := Val.vStr "o" }
        { parameters := [{ name := "p", annot := some (Ty.tSet Ty.tInt) }],
          returnAnnot := some Ty.tStr } =
      Except.error (Err.attributeError "args") :=
  ⟨rfl, rfl⟩

/-- C8: the claim says a docstring containing the placeholder token comes
out of decoration with the token replaced by the joined examples text. On
this source no wrapped function — and so no rewritten docstring — is ever
produced from a nonempty example list: configuration with `Example`
instances raises `ValidationError` (first conjunct, the shape of
`test_few_shot_with_different_formatting_separators`), and past
construction `_validate_examples` raises `AttributeError` at
`example.args` (second conjunct), both before `_modify_docstring` could
run. -/
theorem C8_docstring_never_rewritten :
    fewShotInit
      [RawExample.inst { kwargs := [("arg", Val.vStr "test")], output := Val.vStr "output" },
       RawExample.inst { kwargs := [("arg", Val.vStr "test2")], output := Val.vStr "output2" }] =
      Except.error Err.validationError
    ∧ validateExamples
        [{ kwargs := [("arg", Val.vStr "test")], output := Val.vStr "output" }]
        { parameters := [{ name := "arg", annot := some Ty.tStr }],
          returnAnnot := some Ty.tStr } =
      Except.error (Err.attributeError "args") :=
  ⟨rfl, rfl⟩

/-- C9: a successfully constructed `Example` never keeps the reserved
`"output"` key among its named values (the output lives in the separate
`output` field), and construction fails precisely when no `"output"` key
was supplied. -/
theorem C9_construction_splits_output (values : List (String × Val)) :
    Option.all (fun e => e.kwargs.all (fun kv => !(kv.1 == "output")))
      (exampleInit values) = true
    ∧ (exampleInit values = none ↔ dictLookup values "output" = none) := by
  unfold exampleInit splitArgsKwargsOutput
  cases h : dictLookup values "output" with
  | none => simp [Option.all]
  | some out =>
    exact ⟨by simp [Option.all, List.all_eq_true], by simp⟩

/-- C10 counterexample: at the claim's scenario — parameter `"x"` given a
keyword value, the positional slot to be paired by signature order — the
JSON formatter does not render the keyword value in a mapping; it raises
`AttributeError` at `example.args` before any rendering, so the claimed
error-free override text is not produced. -/
theorem C10_counterexample_formatter_raises :
    jsonFormat
      { kwargs := [("x", Val.vStr "kw")], output := Val.vStr "o" }
      { parameters := [{ name := "x", annot := some Ty.tStr }],
        returnAnnot := some Ty.tStr } =
      Except.error (Err.attributeError "args")
    ∧ (Except.error (Err.attributeError "args") : Except Err String) ≠
      Except.ok "\x7b\"x\": \"kw\"\x7d -> \"o\"" :=
  ⟨rfl, fun h => Except.noConfusion h⟩

/-- C10 (amended): no constructible `Example` stores positional values —
tuple-style positional payloads are folded by `_convert_to_example` and
the root validator into the named-value mapping, under the ordinary keys
`"args"` and `"kwargs"` (second conjunct) — and the JSON formatter raises
`AttributeError` at its `example.args` access for every example and
signature, before any rendering (first conjunct); so a keyword value is
never compared against, or silently overrides, a positional one. -/
theorem C10_no_positional_values (e : Example) (sig : Sig) (v kw out : Val) :
    jsonFormat e sig = Except.error (Err.attributeError "args")
    ∧ exampleInit [("args", v), ("x", kw), ("output", out)] =
        some { kwargs := [("args", v), ("x", kw)], output := out } :=
  ⟨rfl, rfl⟩
